import Mathlib

/-!
Verification of the tk-gaffer engine's menu-synchronization and
context-refresh core against its specification.

The development shallowly embeds the relevant Python code:

* `python/tk_gaffer/menu_generation.py` — `MenuGenerator.create_menu`,
  `_add_divider`, `_add_menu_item`, `_add_sub_menu`, `_add_context_menu`,
  `_add_app_menu`, the `AppCommand` wrapper and the `Callback` class;
* `engine.py` — `GafferEngine.check_if_document_changed`,
  `GafferEngine.create_shotgun_menu` and the module-level `refresh_engine`.

Menu construction is pure apart from the two monotone id counters
(`_divider_id`, `_menu_item_id`) held on the generator instance; these are
modelled by explicit state passing (`GenState`).  `IECore.MenuDefinition`
is modelled as the ordered list of appended entries.  Python's stable
`list.sort(key=...)` is modelled by a stable insertion sort over the
code-point order on strings, which is exactly Python's `str` comparison.
Collaborator calls that can raise (`tank.sgtk_from_path`,
`tk.context_from_path`, `engine.change_context`, the user callback run by
`Callback`) are modelled by explicit outcome values, distinguishing
`tank.TankError` from other exception classes because the source catches
only `tank.TankError`.
-/

/-- Python code-point comparison of two character lists ( `str.__lt__` ). -/
def charListLt : List Char → List Char → Bool
  | _, [] => false
  | [], _ :: _ => true
  | a :: as, b :: bs =>
    if a.toNat < b.toNat then true
    else if b.toNat < a.toNat then false
    else charListLt as bs

/-- Python `a <= b` on strings: code-point lexicographic order. -/
def pyStrLe (a b : String) : Bool := !(charListLt b.data a.data)

/-- Insert an element into a sorted list, before the first element it is
`le`-below-or-equal to; together with `pySort` this is a stable sort, the
ordering contract of Python's `list.sort`. -/
def insertSorted (le : α → α → Bool) (x : α) : List α → List α
  | [] => [x]
  | y :: ys => if le x y then x :: y :: ys else y :: insertSorted le x ys

/-- Stable sort modelling Python's `list.sort(key=...)`. -/
def pySort (le : α → α → Bool) : List α → List α
  | [] => []
  | x :: xs => insertSorted le x (pySort le xs)

/-- First-occurrence deduplication: the key set of a Python dict built by
repeated `setdefault`-style insertion (`commands_by_app`). -/
def listDedup : List String → List String
  | [] => []
  | x :: xs => x :: (listDedup xs).filter (fun y => y != x)

/-- The app object reachable from a command's `properties["app"]`:
`display_name` (used for grouping) and the instance name that
`get_app_instance_name` recovers from `engine.apps` (none when the lookup
finds no matching instance). -/
structure AppInfo where
  display_name : String
  instance_name : Option String
deriving Repr, DecidableEq

/-- The `properties` dict of a registered command, restricted to the keys
`_add_menu_item` and the `AppCommand` accessors read.  `none` models an
absent key; callable values (`enable_callback`, `checkable_callback`) are
modelled by the Bool they return when called at build time. -/
structure CmdProps where
  app : Option AppInfo := none
  cmd_type : Option String := none
  tooltip : Option String := none
  short_cut : Option String := none
  enable_callback : Option Bool := none
  checkable : Option Bool := none
  checkable_callback : Option Bool := none
deriving Repr, DecidableEq

/-- `AppCommand` from menu_generation.py: name, presence of a callback,
properties, and the mutable `favourite` flag (initially `False`). -/
structure AppCommand where
  name : String
  hasCallback : Bool
  props : CmdProps
  favourite : Bool
deriving Repr, DecidableEq

/-- `AppCommand.get_app_name`: the owning app's display name, `None` when
the command has no `app` property. -/
def AppCommand.get_app_name (c : AppCommand) : Option String :=
  c.props.app.map (fun a => a.display_name)

/-- `AppCommand.get_app_instance_name`: the environment instance name of
the owning app, `None` when there is no `app` property or the engine's
app table has no matching instance. -/
def AppCommand.get_app_instance_name (c : AppCommand) : Option String :=
  c.props.app.bind (fun a => a.instance_name)

/-- `AppCommand.get_type`: `properties.get("type", "default")`. -/
def AppCommand.get_type (c : AppCommand) : String :=
  c.props.cmd_type.getD "default"

/-- The menu description dict built by `_add_menu_item`: `command` is
modelled by whether a callback was wrapped, and each optional key by an
`Option`. -/
structure ItemDesc where
  hasCommand : Bool
  label : String
  searchText : String
  description : Option String
  shortCut : Option String
  active : Option Bool
  checkBox : Option Bool
deriving Repr, DecidableEq

/-- One entry appended to the `IECore.MenuDefinition`.  `item` and
`divider` record the parent path and the numeric uniqueness suffix that
the source embeds in the path string; `disabled_item` is the
`"/menu_disabled"` placeholder. -/
inductive MenuEntry where
  | item (parent : String) (name : String) (id : Nat) (desc : ItemDesc)
  | divider (parent : String) (id : Nat)
  | disabled_item
deriving Repr, DecidableEq

/-- The path string under which the source appends the entry:
`parent_menu + "/%s%d" % (name, id)` for items,
`parent_menu + "/divider%s" % id` for dividers, `"/menu_disabled"` for
the disabled placeholder. -/
def MenuEntry.path : MenuEntry → String
  | .item p n i _ => p ++ "/" ++ n ++ toString i
  | .divider p i => p ++ "/divider" ++ toString i
  | .disabled_item => "/menu_disabled"

/-- The per-generator counters `_divider_id` and `_menu_item_id`, both
initialized to 1 in `MenuGenerator.__init__` and never reset. -/
structure GenState where
  divider_id : Nat
  menu_item_id : Nat
deriving Repr, DecidableEq

/-- Counter state of a freshly constructed `MenuGenerator`. -/
def initGenState : GenState := { divider_id := 1, menu_item_id := 1 }

/-- `MenuGenerator._add_divider`. -/
def add_divider (parent : String) (st : GenState) : MenuEntry × GenState :=
  let i := st.divider_id + 1
  (MenuEntry.divider parent i, { st with divider_id := i })

/-- The description dict `_add_menu_item` assembles before appending:
`description`, `shortCut`, `active` and `checkBox` are set only when the
corresponding properties key is present; `checkable` shadows
`checkable_callback` (the source's if/elif). -/
def mk_desc (name : String) (hasCallback : Bool) (props : Option CmdProps) : ItemDesc :=
  { hasCommand := hasCallback
    label := name
    searchText := name
    description := props.bind (fun p => p.tooltip)
    shortCut := props.bind (fun p => p.short_cut)
    active := props.bind (fun p => p.enable_callback)
    checkBox := props.bind (fun p =>
      match p.checkable with
      | some c => some c
      | none => p.checkable_callback) }

/-- `MenuGenerator._add_menu_item`. -/
def add_menu_item (name parent : String) (hasCallback : Bool)
    (props : Option CmdProps) (st : GenState) : MenuEntry × GenState :=
  let i := st.menu_item_id + 1
  (MenuEntry.item parent name i (mk_desc name hasCallback props),
    { st with menu_item_id := i })

/-- `MenuGenerator._add_sub_menu`: path concatenation only. -/
def add_sub_menu (menu_name parent : String) : String :=
  parent ++ "/" ++ menu_name

/-- `AppCommand.add_command_to_menu`: forwards to `_add_menu_item` with
the command's name, callback and properties. -/
def add_command_to_menu (c : AppCommand) (menu : String) (st : GenState) :
    MenuEntry × GenState :=
  add_menu_item c.name menu c.hasCallback (some c.props) st

/-- Context data read by `_add_context_menu`: `str(ctx)` and whether
`ctx.filesystem_locations` is non-empty. -/
structure Ctx where
  name : String
  filesystem_locations : List String
deriving Repr, DecidableEq

/-- `MenuGenerator._add_context_menu`: the context submenu path, the
"Jump to Shotgun" item, the "Jump to File System" item (only when the
context has filesystem locations, with the source's literal tooltip), and
a trailing divider inside the submenu.  Returns the submenu path, the
appended entries in order, and the updated counters. -/
def add_context_menu (ctx : Ctx) (parent : String) (st : GenState) :
    String × List MenuEntry × GenState :=
  let ctx_menu := add_sub_menu ctx.name parent
  let r1 := add_menu_item "Jump to Shotgun" ctx_menu true none st
  let rfs :=
    if ctx.filesystem_locations.isEmpty then ([], r1.snd)
    else
      let r2 := add_menu_item "Jump to File System" ctx_menu true
        (some { tooltip := some "my tooliotoop" }) r1.snd
      ([r2.fst], r2.snd)
  let rd := add_divider ctx_menu rfs.snd
  (ctx_menu, r1.fst :: rfs.fst ++ [rd.fst], rd.snd)

/-- One favourites entry from the `menu_favourites` setting:
`(app_instance, name)`. -/
def fav_matches (fav : String × String) (c : AppCommand) : Bool :=
  c.get_app_instance_name == some fav.fst && c.name == fav.snd

/-- The inner favourites loop of `create_menu`: scan the sorted command
list and append every command matching the favourite to the top level
(the source has no break, but command names are registry keys, so at most
one command can match). -/
def favourites_scan (cmds : List AppCommand) (fav : String × String)
    (st : GenState) : List MenuEntry × GenState :=
  match cmds with
  | [] => ([], st)
  | c :: rest =>
    if fav_matches fav c then
      let r := add_command_to_menu c "" st
      let rs := favourites_scan rest fav r.snd
      (r.fst :: rs.fst, rs.snd)
    else favourites_scan rest fav st

/-- The outer favourites loop of `create_menu`. -/
def favourites_emit (favs : List (String × String)) (cmds : List AppCommand)
    (st : GenState) : List MenuEntry × GenState :=
  match favs with
  | [] => ([], st)
  | f :: fs =>
    let r := favourites_scan cmds f st
    let rs := favourites_emit fs cmds r.snd
    (r.fst ++ rs.fst, rs.snd)

/-- The `cmd.favourite = True` marking performed by the favourites loop:
a command ends up marked exactly when some favourites entry matches it
(the flag is only written, never read, during that loop). -/
def mark_favourites (favs : List (String × String)) (cmds : List AppCommand) :
    List AppCommand :=
  cmds.map (fun c =>
    if favs.any (fun f => fav_matches f c) then { c with favourite := true } else c)

/-- The partition loop's `context_menu` branch: commands whose type is
"context_menu" are appended into the context submenu, in sorted order. -/
def context_type_emit (cmds : List AppCommand) (ctx_menu : String)
    (st : GenState) : List MenuEntry × GenState :=
  match cmds with
  | [] => ([], st)
  | c :: rest =>
    if c.get_type == "context_menu" then
      let r := add_command_to_menu c ctx_menu st
      let rs := context_type_emit rest ctx_menu r.snd
      (r.fst :: rs.fst, rs.snd)
    else context_type_emit rest ctx_menu st

/-- Commands the partition loop routes into `commands_by_app`. -/
def non_context_cmds (cmds : List AppCommand) : List AppCommand :=
  cmds.filter (fun c => c.get_type != "context_menu")

/-- Grouping key of the partition loop: the owning app's display name,
or the literal "Other Items" for un-parented commands. -/
def group_name (c : AppCommand) : String :=
  (c.get_app_name).getD "Other Items"

/-- Sort order used for commands: `key=lambda x: x.name`. -/
def name_le (a b : AppCommand) : Bool := pyStrLe a.name b.name

/-- The per-app emission loop body of `_add_app_menu`: append every
member of a group with more than one command under the app's submenu
(re-sorted by name), and promote a single-command group to the top level
unless that command is a favourite. -/
def add_app_menu_groups (groups : List (String × List AppCommand))
    (st : GenState) : List MenuEntry × GenState :=
  match groups with
  | [] => ([], st)
  | g :: rest =>
    let r :=
      if g.snd.length > 1 then
        emit_all (pySort name_le g.snd) (add_sub_menu g.fst "") st
      else
        match g.snd with
        | [c] =>
          if !c.favourite then
            let r1 := add_command_to_menu c "" st
            ([r1.fst], r1.snd)
          else ([], st)
        | _ => ([], st)
    let rs := add_app_menu_groups rest r.snd
    (r.fst ++ rs.fst, rs.snd)
where
  /-- Append each command of a multi-command group under its submenu. -/
  emit_all (cs : List AppCommand) (menu : String) (st : GenState) :
      List MenuEntry × GenState :=
    match cs with
    | [] => ([], st)
    | c :: rest =>
      let r := add_command_to_menu c menu st
      let rs := emit_all rest menu r.snd
      (r.fst :: rs.fst, rs.snd)

/-- `MenuGenerator._add_app_menu`: build `commands_by_app` (keys in first
occurrence order, values in list order), walk the keys alphabetically,
emit each group, then append the trailing top-level divider. -/
def add_app_menu (cmds : List AppCommand) (st : GenState) :
    List MenuEntry × GenState :=
  let names := pySort pyStrLe (listDedup (cmds.map group_name))
  let groups := names.map (fun n => (n, cmds.filter (fun c => group_name c == n)))
  let r := add_app_menu_groups groups st
  let rd := add_divider "" r.snd
  (r.fst ++ [rd.fst], rd.snd)

/-- The inputs `create_menu` reads from the engine: the command registry
(`engine.commands.items()`, in dict order, values reduced to callback
presence and properties), the `menu_favourites` setting, and the current
context. -/
structure EngineModel where
  commands : List (String × Bool × CmdProps)
  menu_favourites : List (String × String)
  context : Ctx
deriving Repr, DecidableEq

/-- The `menu_items` list `create_menu` builds from
`engine.commands.items()`: one `AppCommand` per registered command, all
with `favourite = False`. -/
def engine_menu_items (eng : EngineModel) : List AppCommand :=
  eng.commands.map (fun nc =>
    ({ name := nc.fst, hasCallback := nc.snd.fst, props := nc.snd.snd,
       favourite := false } : AppCommand))

/-- `MenuGenerator.create_menu(disabled)`: the full build.  Returns the
fresh `MenuDefinition` contents (in append order) together with the
updated generator counters.  The disabled branch appends exactly the
`"/menu_disabled"` placeholder and touches no counter. -/
def create_menu (eng : EngineModel) (disabled : Bool) (st : GenState) :
    List MenuEntry × GenState :=
  if disabled then
    ([MenuEntry.disabled_item], st)
  else
    let rctx := add_context_menu eng.context "" st
    let ctx_menu := rctx.fst
    let rd1 := add_divider "" rctx.snd.snd
    let sorted := pySort name_le (engine_menu_items eng)
    let rfav := favourites_emit eng.menu_favourites sorted rd1.snd
    let rfdiv :=
      if eng.menu_favourites.length > 0 then
        let r := add_divider "" rfav.snd
        ([r.fst], r.snd)
      else ([], rfav.snd)
    let marked := mark_favourites eng.menu_favourites sorted
    let rctxty := context_type_emit marked ctx_menu rfdiv.snd
    let rapp := add_app_menu (non_context_cmds marked) rctxty.snd
    (rctx.snd.fst ++ [rd1.fst] ++ rfav.fst ++ rfdiv.fst ++ rctxty.fst ++ rapp.fst,
      rapp.snd)

/-- Leading-slash test used by the `os.path.abspath` model. -/
def isAbsolutePath (p : String) : Bool :=
  match p.data with
  | [] => false
  | c :: _ => c == '/'

/-- Model of `os.path.abspath` on POSIX paths: absolute paths are
returned unchanged, relative paths are joined onto the working directory.
(The dot-segment collapsing of `normpath` is not modelled; none of the
claims depends on it.)  Idempotent whenever `cwd` is absolute. -/
def abspath (cwd p : String) : String :=
  if isAbsolutePath p then p else cwd ++ "/" ++ p

/-- State of `GafferEngine` read by `check_if_document_changed`: whether
`_application` and `_script` are bound, and the stored
`active_document_filename` (initialized to "untitled" in
`pre_app_init`). -/
structure DocMonitor where
  application : Bool
  script : Bool
  active_document_filename : String
deriving Repr, DecidableEq

/-- `GafferEngine.check_if_document_changed`, one poll: `observed` is the
value of `self._script["fileName"].getValue()` and `fs_exists` the
`os.path.exists` predicate.  Returns the updated engine state and whether
`refresh_engine()` was invoked.  Note the source compares
`os.path.abspath` of the STORED name against the raw observed name, and
stores `os.path.abspath(observed)` on a change. -/
def check_if_document_changed (cwd : String) (fs_exists : String → Bool)
    (m : DocMonitor) (observed : String) : DocMonitor × Bool :=
  if !m.application then (m, false)
  else if !m.script then (m, false)
  else if !(fs_exists observed) then (m, false)
  else if abspath cwd m.active_document_filename != observed then
    ({ m with active_document_filename := abspath cwd observed }, true)
  else (m, false)

/-- Exception classes distinguished by the source's `except` clauses:
`tank.TankError` versus every other exception class. -/
inductive PyExc where
  | tankError
  | otherError
deriving Repr, DecidableEq

/-- Outcome of calling a collaborator that may raise. -/
inductive Outcome (α : Type) where
  | ok (a : α)
  | raises (e : PyExc)
deriving Repr, DecidableEq

/-- The collaborator behavior `refresh_engine` runs against: presence of
the engine and script, the document's `fileName`, and the outcome of each
external call it makes.  Contexts are identified by naturals;
`context_from_path` returning `none` models a falsy context, triggering
the project fallback `context_from_entity_dictionary`. -/
structure RefreshEnv where
  engine_present : Bool
  script_present : Bool
  fileName : String
  sgtk_from_path : Outcome Unit
  context_from_path : Outcome (Option Nat)
  project_context : Nat
  current_context : Nat
  change_context : Outcome Unit
deriving Repr, DecidableEq

/-- Observable result of a completed `refresh_engine` run: how many
warnings were displayed, the engine context afterwards, whether
`engine.change_context` was invoked, and whether the menu was rebuilt in
the disabled state. -/
structure RefreshResult where
  warnings : Nat
  context_after : Nat
  change_requested : Bool
  menu_disabled_rebuild : Bool
deriving Repr, DecidableEq

/-- The module-level `refresh_engine` of engine.py.  Only
`tank.sgtk_from_path` and `engine.change_context` run inside
`try/except tank.TankError`; `tk.context_from_path` is unprotected, and
non-TankError exceptions are unprotected everywhere, so those propagate
(`Outcome.raises`). -/
def refresh_engine (env : RefreshEnv) : Outcome RefreshResult :=
  let noop : RefreshResult :=
    { warnings := 0, context_after := env.current_context,
      change_requested := false, menu_disabled_rebuild := false }
  if !env.engine_present then Outcome.ok noop
  else if !env.script_present then Outcome.ok noop
  else if env.fileName == "" then Outcome.ok noop
  else
    match env.sgtk_from_path with
    | Outcome.raises PyExc.tankError => Outcome.ok { noop with warnings := 1 }
    | Outcome.raises e => Outcome.raises e
    | Outcome.ok _ =>
      match env.context_from_path with
      | Outcome.raises e => Outcome.raises e
      | Outcome.ok octx =>
        let ctx := octx.getD env.project_context
        if ctx != env.current_context then
          match env.change_context with
          | Outcome.ok _ =>
            Outcome.ok { warnings := 0, context_after := ctx,
                         change_requested := true, menu_disabled_rebuild := false }
          | Outcome.raises PyExc.tankError =>
            Outcome.ok { warnings := 1, context_after := env.current_context,
                         change_requested := true, menu_disabled_rebuild := true }
          | Outcome.raises e => Outcome.raises e
        else Outcome.ok noop

/-- The fields of `GafferEngine` touched by `create_shotgun_menu`: the
`_creating_menu` build lock and whether `_menu_generator` is bound. -/
structure MenuBuildState where
  creating_menu : Bool
  has_generator : Bool
deriving Repr, DecidableEq

/-- How a `create_shotgun_menu` call ends: a normal return (with its Bool
return value) or an exception escaping the call; either way the engine
state at that moment is recorded. -/
inductive BuildResult where
  | returns (b : Bool) (st : MenuBuildState)
  | raised (st : MenuBuildState)
deriving Repr, DecidableEq

/-- `GafferEngine.create_shotgun_menu`: when the UI is up and
`can_create_menu` holds, it sets `_creating_menu = True`, binds a fresh
generator, runs `MenuGenerator.create_menu` (whose possible failure is
the `build_raises` parameter), and clears the lock afterwards.  There is
no try/finally around the build, so when the build raises the exception
escapes with the lock still set. -/
def create_shotgun_menu (has_ui can_create : Bool) (build_raises : Bool)
    (st : MenuBuildState) : BuildResult :=
  if has_ui then
    if can_create then
      let st1 : MenuBuildState := { creating_menu := true, has_generator := true }
      if build_raises then BuildResult.raised st1
      else BuildResult.returns true { st1 with creating_menu := false }
    else BuildResult.returns true st
  else BuildResult.returns false st

/-- Behavior of the user callback wrapped by the `Callback` class: it
either returns or raises (an `Exception`, the class the source's
`except Exception` clause catches). -/
inductive CbOutcome where
  | ok
  | raiseExc
deriving Repr, DecidableEq

/-- What `Callback.__call__` does, observably: the deferred-task queue
afterwards (`QtCore.QTimer.singleShot(0, ...)` appends one task to the
event loop), the log records emitted inline, and whether the call itself
raised into the host's dispatch. -/
structure CallbackCallResult where
  queue : List CbOutcome
  inline_logs : List String
  inline_raised : Bool
deriving Repr, DecidableEq

/-- `Callback.__call__(*_)`: ignores every argument, schedules
`_execute_within_exception_trap` onto the next event-loop turn, runs
nothing inline, raises nothing inline. -/
def callback_call (body : CbOutcome) (args : List Nat)
    (queue : List CbOutcome) : CallbackCallResult :=
  { queue := queue ++ [body], inline_logs := [], inline_raised := false }

/-- `Callback._execute_within_exception_trap`, run when the scheduled
task fires: executes the real callback under `try/except Exception`,
returning the log records emitted and whether an exception escaped. -/
def execute_within_exception_trap (body : CbOutcome) : List String × Bool :=
  match body with
  | CbOutcome.ok => ([], false)
  | CbOutcome.raiseExc => (["An exception was raised from Toolkit"], false)

/-- Number of item entries carrying a given name in an emitted menu. -/
def count_items_named (n : String) (es : List MenuEntry) : Nat :=
  es.countP (fun e =>
    match e with
    | MenuEntry.item _ nm _ _ => nm == n
    | _ => false)

/-- Number of top-level dividers (parent path `""`) in an emitted menu. -/
def count_top_dividers (es : List MenuEntry) : Nat :=
  es.countP (fun e =>
    match e with
    | MenuEntry.divider p _ => p == ""
    | _ => false)

/-- App instance "AppA" of the scenario registries. -/
def appA : AppInfo := { display_name := "AppA", instance_name := some "AppA" }

/-- App instance "AppB" of the scenario registries. -/
def appB : AppInfo := { display_name := "AppB", instance_name := some "AppB" }

/-- Properties of a command owned by AppA. -/
def propsA : CmdProps := { app := some appA }

/-- Properties of a command owned by AppB. -/
def propsB : CmdProps := { app := some appB }

/-- Item description of a scenario command emitted by `_add_menu_item`:
a wrapped callback, label and search text equal to the name, and no
optional keys. -/
def plainDesc (n : String) : ItemDesc :=
  { hasCommand := true, label := n, searchText := n, description := none,
    shortCut := none, active := none, checkBox := none }

/-- The spec's scenario registry: AppA owns "Open" and "Save", AppB owns
"Render", favourites list `[("AppB", "Render")]`. -/
def engC2 : EngineModel :=
  { commands := [("Open", true, propsA), ("Save", true, propsA), ("Render", true, propsB)]
    menu_favourites := [("AppB", "Render")]
    context := { name := "ctx", filesystem_locations := [] } }

/-- Registry in which a favourited command ("Open") belongs to a
multi-command app group. -/
def engC5 : EngineModel :=
  { commands := [("Open", true, propsA), ("Save", true, propsA), ("Render", true, propsB)]
    menu_favourites := [("AppA", "Open"), ("AppB", "Render")]
    context := { name := "ctx", filesystem_locations := [] } }

/-- Registry whose favourites list references an app instance/command
pair that no registered command matches. -/
def engC6 : EngineModel :=
  { commands := [("Open", true, propsA)]
    menu_favourites := [("Ghost", "Missing")]
    context := { name := "ctx", filesystem_locations := [] } }

/-- A menu entry with the numeric uniqueness suffix erased: the
structural content of an entry (placement, label, attributes) without
the generator-instance counter value baked into its path. -/
inductive ErasedEntry where
  | item (parent : String) (name : String) (desc : ItemDesc)
  | divider (parent : String)
  | disabled_item
deriving Repr, DecidableEq

/-- Forget the numeric uniqueness suffix of an entry. -/
def MenuEntry.erase_id : MenuEntry → ErasedEntry
  | .item p n _ d => ErasedEntry.item p n d
  | .divider p _ => ErasedEntry.divider p
  | .disabled_item => ErasedEntry.disabled_item

/-- Number of item entries a single `commands_by_app` group contributes
whose name is `n`: every member of a multi-command group is emitted; a
single-command group is emitted only when not favourited. -/
def group_contribution (n : String) (g : String × List AppCommand) : Nat :=
  if g.snd.length > 1 then g.snd.countP (fun c => c.name == n)
  else
    match g.snd with
    | [c] => if !c.favourite && (c.name == n) then 1 else 0
    | _ => 0

/-- Collaborator behavior on which `refresh_engine`'s unprotected
`tk.context_from_path` call raises a `tank.TankError`. -/
def envC7 : RefreshEnv :=
  { engine_present := true, script_present := true,
    fileName := "/proj/shot/scene.gfr",
    sgtk_from_path := Outcome.ok (),
    context_from_path := Outcome.raises PyExc.tankError,
    project_context := 0, current_context := 0,
    change_context := Outcome.ok () }

/-- Collaborator behavior resolving a fresh context whose
`engine.change_context` call raises a `tank.TankError`. -/
def envC7w : RefreshEnv :=
  { engine_present := true, script_present := true,
    fileName := "/proj/shot/scene.gfr",
    sgtk_from_path := Outcome.ok (),
    context_from_path := Outcome.ok (some 5),
    project_context := 0, current_context := 0,
    change_context := Outcome.raises PyExc.tankError }

/-- C2: for the registry AppA.Open, AppA.Save, AppB.Render with
favourites `[("AppB","Render")]` and `disabled=False`, `create_menu`
emits exactly: the context submenu ("Jump to Shotgun" plus the submenu
divider), a top-level divider, the favourited "Render" item at the top
level, another divider, the "AppA" submenu holding "Open" then "Save" in
sorted order, and a trailing divider; the AppB group, whose only command
was favourited, produces no separate top-level entry. -/
theorem c2_scenario_menu_order :
    create_menu engC2 false initGenState =
      ([MenuEntry.item "/ctx" "Jump to Shotgun" 2 (plainDesc "Jump to Shotgun"),
        MenuEntry.divider "/ctx" 2,
        MenuEntry.divider "" 3,
        MenuEntry.item "" "Render" 3 (plainDesc "Render"),
        MenuEntry.divider "" 4,
        MenuEntry.item "/AppA" "Open" 4 (plainDesc "Open"),
        MenuEntry.item "/AppA" "Save" 5 (plainDesc "Save"),
        MenuEntry.divider "" 5],
       { divider_id := 5, menu_item_id := 5 }) := by decide

/-- C9: with `disabled=True` the build produces exactly the single
disabled placeholder entry, for every registry and every generator
state; no command is enumerated. -/
theorem c9_disabled_is_single_placeholder (eng : EngineModel) (st : GenState) :
    create_menu eng true st = ([MenuEntry.disabled_item], st) := rfl

/-- C8: `Callback.__call__` ignores its arguments, runs nothing inline
(no logs, no exception) and only appends the trap task to the event-loop
queue; when the scheduled trap later runs the callback, no exception
escapes, and a raising callback produces exactly the logged record. -/
theorem c8_callback_defers_and_traps :
    (∀ (body : CbOutcome) (args : List Nat) (queue : List CbOutcome),
        callback_call body args queue =
          { queue := queue ++ [body], inline_logs := [], inline_raised := false }) ∧
    (∀ body : CbOutcome, (execute_within_exception_trap body).snd = false) ∧
    execute_within_exception_trap CbOutcome.raiseExc =
      (["An exception was raised from Toolkit"], false) :=
  ⟨fun _ _ _ => rfl, fun body => by cases body <;> rfl, rfl⟩

/-- C1 (failing input): with application and script bound, the stored
name at its initial value "untitled", working directory "/w" and every
path existing, two successive polls observing the same relative path
"a.gfr" both invoke `refresh_engine` — the source compares
`abspath(stored)` against the raw observation, so a repeated identical
non-normalized observation refreshes on every poll instead of zero
times. -/
theorem c1_repeated_observation_refreshes_again :
    ((check_if_document_changed "/w" (fun _ => true)
        { application := true, script := true, active_document_filename := "untitled" }
        "a.gfr").snd = true) ∧
    ((check_if_document_changed "/w" (fun _ => true)
        { application := true, script := true, active_document_filename := "untitled" }
        "a.gfr").fst.active_document_filename = "/w/a.gfr") ∧
    ((check_if_document_changed "/w" (fun _ => true)
        { application := true, script := true, active_document_filename := "/w/a.gfr" }
        "a.gfr").snd = true) := by decide

/-- C3 (failing input): `create_shotgun_menu` with the UI up and a menu
bar available clears `_creating_menu` on a normal build, but when
`MenuGenerator.create_menu` raises, the exception escapes with
`_creating_menu` still `True` — there is no try/finally releasing the
build lock. -/
theorem c3_lock_left_set_when_build_raises :
    create_shotgun_menu true true false
        { creating_menu := false, has_generator := false } =
      BuildResult.returns true { creating_menu := false, has_generator := true } ∧
    create_shotgun_menu true true true
        { creating_menu := false, has_generator := false } =
      BuildResult.raised { creating_menu := true, has_generator := true } := by decide

/-- C10: a poll whose observed `fileName` does not exist on the
filesystem returns without updating the stored document name and without
invoking `refresh_engine`, whatever the stored value is. -/
theorem c10_nonexistent_path_is_ignored (cwd : String)
    (fs_exists : String → Bool) (m : DocMonitor) (observed : String)
    (ha : m.application = true) (hs : m.script = true)
    (hex : fs_exists observed = false) :
    check_if_document_changed cwd fs_exists m observed = (m, false) := by
  unfold check_if_document_changed
  simp [ha, hs, hex]

/-- Witness for C10 at a concrete poll. -/
theorem c10_nonexistent_path_is_ignored_witness :
    check_if_document_changed "/w" (fun _ => false)
        { application := true, script := true, active_document_filename := "untitled" }
        "b.gfr" =
      ({ application := true, script := true, active_document_filename := "untitled" },
        false) :=
  c10_nonexistent_path_is_ignored "/w" (fun _ => false)
    { application := true, script := true, active_document_filename := "untitled" }
    "b.gfr" rfl rfl rfl

/-- The submenu path returned by `_add_context_menu` does not depend on
the counter state. -/
theorem add_context_menu_fst (ctx : Ctx) (p : String) (st : GenState) :
    (add_context_menu ctx p st).fst = add_sub_menu ctx.name p := rfl

/-- Erasing ids from a single emitted command item yields a value
independent of the counter state. -/
theorem erase_add_command_to_menu (c : AppCommand) (menu : String) (st : GenState) :
    MenuEntry.erase_id (add_command_to_menu c menu st).fst =
      ErasedEntry.item menu c.name (mk_desc c.name c.hasCallback (some c.props)) := rfl

/-- Erased entries of the context submenu section do not depend on the
counter state. -/
theorem add_context_menu_erase (ctx : Ctx) (p : String) (st st2 : GenState) :
    ((add_context_menu ctx p st).snd.fst).map MenuEntry.erase_id =
      ((add_context_menu ctx p st2).snd.fst).map MenuEntry.erase_id := by
  by_cases h : ctx.filesystem_locations.isEmpty <;>
    simp [add_context_menu, h, add_menu_item, add_divider, MenuEntry.erase_id]

/-- Erased entries of one favourites scan do not depend on the counter
state. -/
theorem favourites_scan_erase (fav : String × String) :
    ∀ (cmds : List AppCommand) (st st2 : GenState),
      ((favourites_scan cmds fav st).fst).map MenuEntry.erase_id =
        ((favourites_scan cmds fav st2).fst).map MenuEntry.erase_id := by
  intro cmds
  induction cmds with
  | nil => intro st st2; rfl
  | cons c rest ih =>
    intro st st2
    by_cases h : fav_matches fav c = true
    · simp only [favourites_scan, h, if_true, List.map_cons]
      exact congrArg₂ List.cons rfl (ih _ _)
    · simp only [favourites_scan, h, if_false]
      exact ih st st2

/-- Erased entries of the favourites section do not depend on the
counter state. -/
theorem favourites_emit_erase (cmds : List AppCommand) :
    ∀ (favs : List (String × String)) (st st2 : GenState),
      ((favourites_emit favs cmds st).fst).map MenuEntry.erase_id =
        ((favourites_emit favs cmds st2).fst).map MenuEntry.erase_id := by
  intro favs
  induction favs with
  | nil => intro st st2; rfl
  | cons f fs ih =>
    intro st st2
    simp only [favourites_emit, List.map_append]
    exact congrArg₂ (· ++ ·) (favourites_scan_erase f cmds _ _) (ih _ _)

/-- Erased entries of the context-typed command section do not depend on
the counter state. -/
theorem context_type_emit_erase (ctx_menu : String) :
    ∀ (cmds : List AppCommand) (st st2 : GenState),
      ((context_type_emit cmds ctx_menu st).fst).map MenuEntry.erase_id =
        ((context_type_emit cmds ctx_menu st2).fst).map MenuEntry.erase_id := by
  intro cmds
  induction cmds with
  | nil => intro st st2; rfl
  | cons c rest ih =>
    intro st st2
    by_cases h : (c.get_type == "context_menu") = true
    · simp only [context_type_emit, h, if_true, List.map_cons]
      exact congrArg₂ List.cons rfl (ih _ _)
    · simp only [context_type_emit, h, if_false]
      exact ih st st2

/-- Erased entries of a multi-command group emission do not depend on
the counter state. -/
theorem emit_all_erase (menu : String) :
    ∀ (cs : List AppCommand) (st st2 : GenState),
      ((add_app_menu_groups.emit_all cs menu st).fst).map MenuEntry.erase_id =
        ((add_app_menu_groups.emit_all cs menu st2).fst).map MenuEntry.erase_id := by
  intro cs
  induction cs with
  | nil => intro st st2; rfl
  | cons c rest ih =>
    intro st st2
    simp only [add_app_menu_groups.emit_all, List.map_cons]
    exact congrArg₂ List.cons rfl (ih _ _)

/-- Erased entries of the per-app group walk do not depend on the
counter state. -/
theorem add_app_menu_groups_erase :
    ∀ (groups : List (String × List AppCommand)) (st st2 : GenState),
      ((add_app_menu_groups groups st).fst).map MenuEntry.erase_id =
        ((add_app_menu_groups groups st2).fst).map MenuEntry.erase_id := by
  intro groups
  induction groups with
  | nil => intro st st2; rfl
  | cons g rest ih =>
    intro st st2
    by_cases h : g.snd.length > 1
    · simp only [add_app_menu_groups, if_pos h, List.map_append]
      exact congrArg₂ (· ++ ·) (emit_all_erase _ _ _ _) (ih _ _)
    · simp only [add_app_menu_groups, if_neg h, List.map_append]
      refine congrArg₂ (· ++ ·) ?_ (ih _ _)
      cases g.snd with
      | nil => rfl
      | cons c cs =>
        cases cs with
        | nil =>
          by_cases hf : (!c.favourite) = true <;> simp [hf, MenuEntry.erase_id,
            add_command_to_menu, add_menu_item]
        | cons d ds => rfl

/-- Erased entries of `_add_app_menu` do not depend on the counter
state. -/
theorem add_app_menu_erase (cmds : List AppCommand) (st st2 : GenState) :
    ((add_app_menu cmds st).fst).map MenuEntry.erase_id =
      ((add_app_menu cmds st2).fst).map MenuEntry.erase_id := by
  simp only [add_app_menu, List.map_append]
  exact congrArg₂ (· ++ ·) (add_app_menu_groups_erase _ _ _) rfl

/-- C4 (counterexample): with the scenario registry, two successive
builds by the same `MenuGenerator` instance do not produce identical
menu definitions — the id counters are never reset, so all entry paths
of the second build carry different numeric suffixes. -/
theorem c4_counterexample_same_instance_differs :
    (create_menu engC2 false initGenState).fst ≠
      (create_menu engC2 false (create_menu engC2 false initGenState).snd).fst := by
  decide

/-- C4 (amended): the build is deterministic in all inputs, and two
builds by the same instance differ at most in the numeric uniqueness
suffixes of entry paths: erasing the ids yields identical entry lists
(same placement, same order, same labels and attributes) for any two
counter states, in particular for a fresh instance versus an already
used one. -/
theorem c4_amended_erased_build_deterministic (eng : EngineModel)
    (disabled : Bool) (st st2 : GenState) :
    ((create_menu eng disabled st).fst).map MenuEntry.erase_id =
      ((create_menu eng disabled st2).fst).map MenuEntry.erase_id := by
  cases disabled with
  | true => rfl
  | false =>
    simp only [create_menu, Bool.false_eq_true, if_false, List.map_append,
      add_context_menu_fst]
    by_cases h : eng.menu_favourites.length > 0
    · simp only [if_pos h]
      refine congrArg₂ (· ++ ·) ?_ (add_app_menu_erase _ _ _)
      refine congrArg₂ (· ++ ·) ?_ (context_type_emit_erase _ _ _ _)
      refine congrArg₂ (· ++ ·) ?_ rfl
      refine congrArg₂ (· ++ ·) ?_ (favourites_emit_erase _ _ _ _)
      exact congrArg₂ (· ++ ·) (add_context_menu_erase _ _ _ _) rfl
    · simp only [if_neg h]
      refine congrArg₂ (· ++ ·) ?_ (add_app_menu_erase _ _ _)
      refine congrArg₂ (· ++ ·) ?_ (context_type_emit_erase _ _ _ _)
      refine congrArg₂ (· ++ ·) ?_ rfl
      refine congrArg₂ (· ++ ·) ?_ (favourites_emit_erase _ _ _ _)
      exact congrArg₂ (· ++ ·) (add_context_menu_erase _ _ _ _) rfl

/-- A submenu path rooted at the top level is never the empty top-level
path itself. -/
theorem add_sub_menu_top_ne_empty (s : String) :
    ((add_sub_menu s "") == "") = false := by
  rw [beq_eq_false_iff_ne]
  intro h
  have hd : (add_sub_menu s "").data = '/' :: s.data := by
    simp [add_sub_menu, String.data_append]
  rw [h] at hd
  exact List.noConfusion hd

/-- Predicate selecting top-level dividers. -/
def is_top_divider (e : MenuEntry) : Bool :=
  match e with
  | MenuEntry.divider p _ => p == ""
  | _ => false

/-- The two counters agree by definition. -/
theorem count_top_dividers_eq_countP (es : List MenuEntry) :
    count_top_dividers es = es.countP is_top_divider := rfl

/-- Counting top-level dividers distributes over concatenation. -/
theorem count_top_dividers_append (a b : List MenuEntry) :
    count_top_dividers (a ++ b) = count_top_dividers a + count_top_dividers b := by
  simp [count_top_dividers, List.countP_append]

/-- The context submenu section contains no top-level divider: its only
divider lives inside the context submenu path. -/
theorem add_context_menu_top_dividers (ctx : Ctx) (st : GenState) :
    count_top_dividers (add_context_menu ctx "" st).snd.fst = 0 := by
  by_cases h : ctx.filesystem_locations.isEmpty <;>
    simp [add_context_menu, h, count_top_dividers, add_menu_item, add_divider,
      add_sub_menu_top_ne_empty ctx.name]

/-- A favourites scan emits items only, never a top-level divider. -/
theorem favourites_scan_top_dividers (fav : String × String) :
    ∀ (cmds : List AppCommand) (st : GenState),
      count_top_dividers (favourites_scan cmds fav st).fst = 0 := by
  intro cmds
  induction cmds with
  | nil => intro st; rfl
  | cons c rest ih =>
    intro st
    by_cases h : fav_matches fav c = true <;>
      simp [favourites_scan, h, count_top_dividers, List.countP_cons,
        add_command_to_menu, add_menu_item, is_top_divider] <;>
      simpa [count_top_dividers] using ih _

/-- The favourites section emits items only, never a top-level
divider. -/
theorem favourites_emit_top_dividers (cmds : List AppCommand) :
    ∀ (favs : List (String × String)) (st : GenState),
      count_top_dividers (favourites_emit favs cmds st).fst = 0 := by
  intro favs
  induction favs with
  | nil => intro st; rfl
  | cons f fs ih =>
    intro st
    simp [favourites_emit, count_top_dividers, List.countP_append]
    constructor
    · simpa [count_top_dividers] using favourites_scan_top_dividers f cmds st
    · simpa [count_top_dividers] using ih _

/-- The context-typed command section emits items only. -/
theorem context_type_emit_top_dividers (ctx_menu : String) :
    ∀ (cmds : List AppCommand) (st : GenState),
      count_top_dividers (context_type_emit cmds ctx_menu st).fst = 0 := by
  intro cmds
  induction cmds with
  | nil => intro st; rfl
  | cons c rest ih =>
    intro st
    by_cases h : (c.get_type == "context_menu") = true <;>
      simp [context_type_emit, h, count_top_dividers, List.countP_cons,
        add_command_to_menu, add_menu_item, is_top_divider] <;>
      simpa [count_top_dividers] using ih _

/-- Multi-command group emission produces items only. -/
theorem emit_all_top_dividers (menu : String) :
    ∀ (cs : List AppCommand) (st : GenState),
      count_top_dividers (add_app_menu_groups.emit_all cs menu st).fst = 0 := by
  intro cs
  induction cs with
  | nil => intro st; rfl
  | cons c rest ih =>
    intro st
    simp [add_app_menu_groups.emit_all, count_top_dividers, List.countP_cons,
      add_command_to_menu, add_menu_item, is_top_divider]
    simpa [count_top_dividers] using ih _

/-- The per-app group walk emits items only, never a top-level
divider. -/
theorem add_app_menu_groups_top_dividers :
    ∀ (groups : List (String × List AppCommand)) (st : GenState),
      count_top_dividers (add_app_menu_groups groups st).fst = 0 := by
  intro groups
  induction groups with
  | nil => intro st; rfl
  | cons g rest ih =>
    intro st
    by_cases h : g.snd.length > 1
    · simp [add_app_menu_groups, h, count_top_dividers, List.countP_append]
      constructor
      · simpa [count_top_dividers] using
          emit_all_top_dividers (add_sub_menu g.fst "") (pySort name_le g.snd) st
      · simpa [count_top_dividers] using ih _
    · simp only [add_app_menu_groups, if_neg h, count_top_dividers_eq_countP,
        List.countP_append]
      have h2 : ∀ st2 : GenState,
          List.countP is_top_divider
            (match g.snd with
              | [c] =>
                if !c.favourite then
                  ([(add_command_to_menu c "" st2).fst], (add_command_to_menu c "" st2).snd)
                else ([], st2)
              | _ => ([], st2) :
              List MenuEntry × GenState).fst = 0 := by
        intro st2
        cases g.snd with
        | nil => rfl
        | cons c cs =>
          cases cs with
          | nil =>
            by_cases hf : (!c.favourite) = true <;>
              simp [hf, add_command_to_menu, add_menu_item, is_top_divider]
          | cons d ds => rfl
      rw [h2 st]
      simpa [count_top_dividers] using ih _

/-- `_add_app_menu` contributes exactly one top-level divider: the
trailing one. -/
theorem add_app_menu_top_dividers (cmds : List AppCommand) (st : GenState) :
    count_top_dividers (add_app_menu cmds st).fst = 1 := by
  simp [add_app_menu, count_top_dividers, List.countP_append, add_divider,
    is_top_divider]
  simpa [count_top_dividers] using add_app_menu_groups_top_dividers _ st

/-- C6 (amended): in an enabled build the number of top-level dividers
is two when the favourites configuration list is empty and three when it
is non-empty — the divider following the favourites section is emitted
if and only if the configured favourites list is non-empty, regardless
of whether any favourite matched a registered command. -/
theorem c6_amended_divider_iff_favourites_configured (eng : EngineModel)
    (st : GenState) :
    count_top_dividers (create_menu eng false st).fst =
      if eng.menu_favourites.isEmpty then 2 else 3 := by
  simp only [create_menu, Bool.false_eq_true, if_false, count_top_dividers_append]
  rw [add_context_menu_top_dividers, favourites_emit_top_dividers,
    context_type_emit_top_dividers, add_app_menu_top_dividers]
  cases hf : eng.menu_favourites with
  | nil =>
    simp [hf, count_top_dividers, add_divider, is_top_divider, List.countP_cons]
  | cons f fs =>
    simp [hf, count_top_dividers, add_divider, is_top_divider, List.countP_cons]

/-- C6 (counterexample): with a favourites list whose single entry
("Ghost", "Missing") matches no registered command, the favourites
section adds nothing — yet the divider that the claim says follows only
an actually-matched favourite is still emitted (the second top-level
divider, id 4, directly after the post-context divider, id 3), and the
build completes normally with the unmatched favourite silently
omitted. -/
theorem c6_counterexample_divider_without_match :
    (favourites_emit engC6.menu_favourites
        (pySort name_le (engine_menu_items engC6))
        { divider_id := 3, menu_item_id := 2 }).fst = [] ∧
    create_menu engC6 false initGenState =
      ([MenuEntry.item "/ctx" "Jump to Shotgun" 2 (plainDesc "Jump to Shotgun"),
        MenuEntry.divider "/ctx" 2,
        MenuEntry.divider "" 3,
        MenuEntry.divider "" 4,
        MenuEntry.item "" "Open" 3 (plainDesc "Open"),
        MenuEntry.divider "" 5],
       { divider_id := 5, menu_item_id := 3 }) := by decide

/-- C7 (counterexample): `refresh_engine` does let a fault propagate to
its caller: with the engine and script bound, a saved document and a
resolvable sgtk instance, a `tank.TankError` raised by the unprotected
`tk.context_from_path` call escapes `refresh_engine` uncaught. -/
theorem c7_counterexample_context_from_path_fault_escapes :
    refresh_engine envC7 = Outcome.raises PyExc.tankError := rfl

/-- C7 (amended): the two protected failure paths behave as the claim
says for `tank.TankError` — a resolution failure in
`tank.sgtk_from_path` is absorbed with a warning, an unchanged context
and no change request; a `tank.TankError` from `engine.change_context`
on a differing context is absorbed with a warning and a disabled menu
rebuild — while a fault raised by the unprotected `tk.context_from_path`
call propagates to the caller. -/
theorem c7_amended_tankerror_paths (env : RefreshEnv)
    (he : env.engine_present = true) (hs : env.script_present = true)
    (hf : (env.fileName == "") = false) :
    (env.sgtk_from_path = Outcome.raises PyExc.tankError →
      refresh_engine env =
        Outcome.ok { warnings := 1, context_after := env.current_context,
                     change_requested := false, menu_disabled_rebuild := false }) ∧
    (∀ octx : Option Nat, env.sgtk_from_path = Outcome.ok () →
      env.context_from_path = Outcome.ok octx →
      (octx.getD env.project_context != env.current_context) = true →
      env.change_context = Outcome.raises PyExc.tankError →
      refresh_engine env =
        Outcome.ok { warnings := 1, context_after := env.current_context,
                     change_requested := true, menu_disabled_rebuild := true }) ∧
    (∀ e : PyExc, env.sgtk_from_path = Outcome.ok () →
      env.context_from_path = Outcome.raises e →
      refresh_engine env = Outcome.raises e) := by
  refine ⟨?_, ?_, ?_⟩
  · intro hr
    simp [refresh_engine, he, hs, hf, hr]
  · intro octx hok hctx hne hchg
    simp [refresh_engine, he, hs, hf, hok, hctx, hne, hchg]
  · intro e hok hctx
    simp [refresh_engine, he, hs, hf, hok, hctx]

/-- Witness for C7's amended theorem: the change-context failure path at
a concrete collaborator behavior. -/
theorem c7_amended_tankerror_paths_witness :
    refresh_engine envC7w =
      Outcome.ok { warnings := 1, context_after := 0,
                   change_requested := true, menu_disabled_rebuild := true } :=
  (c7_amended_tankerror_paths envC7w rfl rfl rfl).2.1 (some 5) rfl rfl
    (by decide) rfl

/-- Inserting into a sorted list is a permutation of consing. -/
theorem insertSorted_perm (le : α → α → Bool) (x : α) :
    ∀ l : List α, (insertSorted le x l).Perm (x :: l) := by
  intro l
  induction l with
  | nil => exact List.Perm.refl _
  | cons y ys ih =>
    by_cases h : le x y = true
    · simp only [insertSorted, h, if_true]
      exact List.Perm.refl _
    · simp only [insertSorted, h, if_false]
      exact (ih.cons y).trans (List.Perm.swap x y ys)

/-- The stable sort permutes its input. -/
theorem pySort_perm (le : α → α → Bool) :
    ∀ l : List α, (pySort le l).Perm l := by
  intro l
  induction l with
  | nil => exact List.Perm.refl _
  | cons x xs ih => exact (insertSorted_perm le x (pySort le xs)).trans (ih.cons x)

/-- Membership is unchanged by first-occurrence deduplication. -/
theorem mem_listDedup : ∀ (l : List String) (x : String),
    x ∈ listDedup l ↔ x ∈ l := by
  intro l
  induction l with
  | nil => intro x; simp [listDedup]
  | cons a as ih =>
    intro x
    by_cases hxa : x = a
    · simp [listDedup, hxa]
    · simp [listDedup, List.mem_filter, ih, hxa, bne_iff_ne]

/-- First-occurrence deduplication yields a duplicate-free list. -/
theorem listDedup_nodup : ∀ l : List String, (listDedup l).Nodup := by
  intro l
  induction l with
  | nil => exact List.nodup_nil
  | cons a as ih =>
    rw [listDedup, List.nodup_cons]
    refine ⟨?_, List.Nodup.filter _ ih⟩
    intro hmem
    have := (List.mem_filter.mp hmem).2
    simp at this

/-- A list whose `countP` is one relates any two members satisfying the
predicate. -/
theorem countP_one_unique {p : α → Bool} {l : List α}
    (h : l.countP p = 1) {a b : α} (ha : a ∈ l) (hpa : p a = true)
    (hb : b ∈ l) (hpb : p b = true) : a = b := by
  rw [List.countP_eq_length_filter] at h
  obtain ⟨z, hz⟩ := List.length_eq_one.mp h
  have h1 : a ∈ List.filter p l := List.mem_filter.mpr ⟨ha, hpa⟩
  have h2 : b ∈ List.filter p l := List.mem_filter.mpr ⟨hb, hpb⟩
  rw [hz, List.mem_singleton] at h1 h2
  rw [h1, h2]

/-- Counting named items distributes over concatenation. -/
theorem count_items_named_append (n : String) (a b : List MenuEntry) :
    count_items_named n (a ++ b) =
      count_items_named n a + count_items_named n b := by
  simp [count_items_named, List.countP_append]

/-- A multi-command group emission contributes one item per member
carrying the name. -/
theorem emit_all_count (n menu : String) :
    ∀ (cs : List AppCommand) (st : GenState),
      count_items_named n (add_app_menu_groups.emit_all cs menu st).fst =
        cs.countP (fun c => c.name == n) := by
  intro cs
  induction cs with
  | nil => intro st; rfl
  | cons c rest ih =>
    intro st
    simp only [add_app_menu_groups.emit_all, count_items_named, List.countP_cons,
      add_command_to_menu, add_menu_item]
    rw [← count_items_named, ih]

/-- The per-app group walk contributes, per group, exactly
`group_contribution`. -/
theorem add_app_menu_groups_count (n : String) :
    ∀ (groups : List (String × List AppCommand)) (st : GenState),
      count_items_named n (add_app_menu_groups groups st).fst =
        (groups.map (group_contribution n)).sum := by
  intro groups
  induction groups with
  | nil => intro st; rfl
  | cons g rest ih =>
    intro st
    by_cases h : g.snd.length > 1
    · simp only [add_app_menu_groups, if_pos h, List.map_cons, List.sum_cons]
      rw [count_items_named_append, emit_all_count, ih]
      have hp : (pySort name_le g.snd).countP (fun c => c.name == n) =
          g.snd.countP (fun c => c.name == n) :=
        (pySort_perm name_le g.snd).countP_eq _
      rw [hp, group_contribution, if_pos h]
    · simp only [add_app_menu_groups, if_neg h, List.map_cons, List.sum_cons]
      rw [count_items_named_append, ih]
      have hg : count_items_named n
          (match g.snd with
            | [c] =>
              if !c.favourite then
                ([(add_command_to_menu c "" st).fst], (add_command_to_menu c "" st).snd)
              else ([], st)
            | _ => ([], st) :
            List MenuEntry × GenState).fst = group_contribution n g := by
        rw [group_contribution, if_neg h]
        cases hcs : g.snd with
        | nil => rfl
        | cons c cs =>
          cases cs with
          | nil =>
            by_cases hf : (!c.favourite) = true <;>
              by_cases hn : (c.name == n) = true <;>
                simp [hf, hn, add_command_to_menu, add_menu_item,
                  count_items_named, List.countP_cons]
          | cons d ds => rfl
      rw [hg]

/-- One favourites scan promotes exactly the commands matching the
favourite on both fields, in sorted-list order. -/
theorem favourites_scan_spec (fav : String × String) :
    ∀ (cmds : List AppCommand) (st : GenState),
      ((favourites_scan cmds fav st).fst).map MenuEntry.erase_id =
        (cmds.filter (fun c => fav_matches fav c)).map
          (fun c => ErasedEntry.item "" c.name
            (mk_desc c.name c.hasCallback (some c.props))) := by
  intro cmds
  induction cmds with
  | nil => intro st; rfl
  | cons c rest ih =>
    intro st
    by_cases h : fav_matches fav c = true
    · simp only [favourites_scan, h, if_true, List.filter_cons, List.map_cons]
      exact congrArg₂ List.cons rfl (ih _)
    · simp only [favourites_scan, h, if_false, List.filter_cons, Bool.false_eq_true]
      exact ih _

/-- The favourites section promotes, favourite by favourite, exactly the
matching commands. -/
theorem favourites_emit_spec (cmds : List AppCommand) :
    ∀ (favs : List (String × String)) (st : GenState),
      ((favourites_emit favs cmds st).fst).map MenuEntry.erase_id =
        favs.flatMap (fun f =>
          (cmds.filter (fun c => fav_matches f c)).map
            (fun c => ErasedEntry.item "" c.name
              (mk_desc c.name c.hasCallback (some c.props)))) := by
  intro favs
  induction favs with
  | nil => intro st; rfl
  | cons f fs ih =>
    intro st
    simp only [favourites_emit, List.flatMap_cons, List.map_append]
    exact congrArg₂ (· ++ ·) (favourites_scan_spec f cmds _) (ih _)

/-- C5 (amended): (1) the favourites pass promotes to the top level
exactly the commands matching a favourite on both the app-instance name
and the command name (command names are registry keys, so the first
match is the only match); (2) a favourited command is protected from
re-emission only by the single-command branch of the per-app section:
when its application group holds exactly one command it is not emitted
there, but when the group holds several commands it is emitted a second
time inside the group's submenu. -/
theorem c5_amended_favourite_promotion_and_duplication :
    (∀ (favs : List (String × String)) (cmds : List AppCommand) (st : GenState),
      ((favourites_emit favs cmds st).fst).map MenuEntry.erase_id =
        favs.flatMap (fun f =>
          (cmds.filter (fun c => fav_matches f c)).map
            (fun c => ErasedEntry.item "" c.name
              (mk_desc c.name c.hasCallback (some c.props))))) ∧
    (∀ (cmds : List AppCommand) (st : GenState) (c : AppCommand),
      c ∈ cmds → c.favourite = true →
      cmds.countP (fun x => x.name == c.name) = 1 →
      count_items_named c.name (add_app_menu cmds st).fst =
        if (cmds.filter (fun x => group_name x == group_name c)).length = 1
        then 0 else 1) := by
  refine ⟨fun favs cmds st => favourites_emit_spec cmds favs st, ?_⟩
  intro cmds st c hmem hfav huniq
  simp only [add_app_menu]
  rw [count_items_named_append, add_app_menu_groups_count]
  have hdiv : count_items_named c.name
      [(add_divider "" (add_app_menu_groups
        ((pySort pyStrLe (listDedup (cmds.map group_name))).map
          (fun n => (n, cmds.filter (fun cc => group_name cc == n)))) st).snd).fst] = 0 := by
    simp [count_items_named, add_divider]
  rw [hdiv, List.map_map]
  simp only [Function.comp_def]
  have hmemn : group_name c ∈ pySort pyStrLe (listDedup (cmds.map group_name)) :=
    ((pySort_perm _ _).mem_iff).mpr
      ((mem_listDedup _ _).mpr (List.mem_map_of_mem _ hmem))
  have hnd : (pySort pyStrLe (listDedup (cmds.map group_name))).Nodup :=
    (pySort_perm _ _).symm.nodup (listDedup_nodup _)
  have hperm := List.perm_cons_erase hmemn
  have hsum := (hperm.map (fun nm => group_contribution c.name
      (nm, cmds.filter (fun x => group_name x == nm)))).sum_eq
  rw [hsum, List.map_cons, List.sum_cons]
  have hzero : (((pySort pyStrLe (listDedup (cmds.map group_name))).erase
      (group_name c)).map (fun nm => group_contribution c.name
      (nm, cmds.filter (fun x => group_name x == nm)))).sum = 0 := by
    apply List.sum_eq_zero
    intro v hv
    obtain ⟨nm, hnm, rfl⟩ := List.mem_map.mp hv
    have hmm := (hnd.mem_erase_iff).mp hnm
    have hnone : ∀ x ∈ cmds.filter (fun x => group_name x == nm),
        (x.name == c.name) = false := by
      intro x hx
      rcases List.mem_filter.mp hx with ⟨hxc, hxg⟩
      by_contra hcon
      have hxt : (x.name == c.name) = true := by
        cases hxx : (x.name == c.name) with
        | false => exact absurd hxx hcon
        | true => rfl
      have hxeq : x = c := countP_one_unique huniq hxc hxt hmem (by simp)
      rw [hxeq] at hxg
      exact hmm.1 ((eq_of_beq hxg).symm)
    simp only [group_contribution]
    by_cases hl : (cmds.filter (fun x => group_name x == nm)).length > 1
    · rw [if_pos hl]
      exact List.countP_eq_zero.mpr (fun a ha => by simp [hnone a ha])
    · rw [if_neg hl]
      cases hcs : cmds.filter (fun x => group_name x == nm) with
      | nil => rfl
      | cons y ys =>
        cases ys with
        | nil =>
          have hy : y ∈ cmds.filter (fun x => group_name x == nm) := by
            rw [hcs]; exact List.mem_cons_self _ _
          simp [hnone y hy]
        | cons z zs => rfl
  rw [hzero]
  have hcsc : c ∈ cmds.filter (fun x => group_name x == group_name c) :=
    List.mem_filter.mpr ⟨hmem, by simp⟩
  by_cases hl1 : (cmds.filter (fun x => group_name x == group_name c)).length = 1
  · rw [if_pos hl1]
    obtain ⟨y, hy⟩ := List.length_eq_one.mp hl1
    simp only [group_contribution]
    rw [if_neg (by omega), hy]
    have hcy : c = y := by
      have hc2 := hcsc
      rw [hy, List.mem_singleton] at hc2
      exact hc2
    simp [← hcy, hfav]
  · rw [if_neg hl1]
    have hlen1 : 0 < (cmds.filter (fun x => group_name x == group_name c)).length :=
      List.length_pos.mpr (List.ne_nil_of_mem hcsc)
    have hgt : (cmds.filter (fun x => group_name x == group_name c)).length > 1 := by
      omega
    simp only [group_contribution]
    rw [if_pos hgt, List.countP_filter]
    have hle : cmds.countP
        (fun a => (a.name == c.name) && (group_name a == group_name c)) ≤
        cmds.countP (fun x => x.name == c.name) :=
      List.countP_mono_left (fun a _ hpa => by
        simp only [Bool.and_eq_true] at hpa
        exact hpa.1)
    have hge : 0 < cmds.countP
        (fun a => (a.name == c.name) && (group_name a == group_name c)) :=
      List.countP_pos.mpr ⟨c, hmem, by simp⟩
    omega

/-- Witness for C5's amended theorem: a favourited command ("Open")
whose application group (AppA) holds two commands, evaluated
concretely — the group has length two, so the group phase emits it once
more. -/
theorem c5_amended_favourite_promotion_and_duplication_witness :
    count_items_named "Open"
      (add_app_menu
        [{ name := "Open", hasCallback := true, props := propsA, favourite := true },
         { name := "Render", hasCallback := true, props := propsB, favourite := true },
         { name := "Save", hasCallback := true, props := propsA, favourite := false }]
        initGenState).fst =
      if (([{ name := "Open", hasCallback := true, props := propsA, favourite := true },
            { name := "Render", hasCallback := true, props := propsB, favourite := true },
            { name := "Save", hasCallback := true, props := propsA, favourite := false }] :
            List AppCommand).filter
          (fun x => group_name x == group_name
            { name := "Open", hasCallback := true, props := propsA,
              favourite := true })).length = 1
      then 0 else 1 :=
  c5_amended_favourite_promotion_and_duplication.2
    [{ name := "Open", hasCallback := true, props := propsA, favourite := true },
     { name := "Render", hasCallback := true, props := propsB, favourite := true },
     { name := "Save", hasCallback := true, props := propsA, favourite := false }]
    initGenState
    { name := "Open", hasCallback := true, props := propsA, favourite := true }
    (by decide) rfl (by decide)

/-- C5 (counterexample): with registry AppA.Open, AppA.Save, AppB.Render
and favourites [("AppA","Open"), ("AppB","Render")], the favourited
"Open" command appears twice in the emitted menu — once promoted to the
top level and once more inside the two-command "AppA" submenu, because
the multi-command branch of `_add_app_menu` does not skip favourites. -/
theorem c5_counterexample_favourite_duplicated :
    count_items_named "Open" (create_menu engC5 false initGenState).fst = 2 := by
  decide
